import Mathlib

/-!
Verification of the request-execution and resilience layer of the
msa-territory-design retailer scraper collection.

The embedding covers:
* src/shared/utils.py : get_with_retry, save_checkpoint, load_checkpoint
* src/shared/proxy_client.py : ProxyMode, ProxyConfig (validate),
  ProxyResponse (ok), ProxyClient (init-time validation/downgrade,
  the residential proxy URL builder, the Web Scraper API request and
  payload builder, and the retry loop of ProxyClient.get).

External collaborators (the requests transport, the Python json codec,
the operating-system file primitives used by tempfile/shutil) are
modelled as oracles or as value-level operations: the HTTP transport is
an oracle giving the status/outcome of each attempt, and json.dump
followed by json.load is modelled as the identity on a JSON value tree
(the contract of the standard-library codec on the JSON domain).
Blocking sleeps and delays are recorded as trace events, not timed.
-/

/-! ## Events and attempt outcomes for utils.get_with_retry -/

/-- Outcome of one HTTP attempt as seen by get_with_retry: either the
transport returned a response with the given status code, or it raised a
requests.RequestException. -/
inductive AttemptResult where
  | status (code : Int)
  | exn
deriving DecidableEq, Repr

/-- Observable side effects of get_with_retry, in order: the randomized
inter-request delay (random_delay), an HTTP request that returned the
given status, an HTTP request that raised, and a time.sleep of the given
number of seconds. -/
inductive Event where
  | delay
  | request (code : Int)
  | reqError
  | sleep (seconds : Nat)
deriving DecidableEq, Repr

/-- True for the events that correspond to one HTTP attempt being made
(a request that returned or a request that raised). -/
def Event.isAttempt : Event → Bool
  | .request _ => true
  | .reqError => true
  | _ => false

/-- True exactly for the randomized inter-request delay event. -/
def Event.isDelay : Event → Bool
  | .delay => true
  | _ => false

/-- Number of HTTP attempts recorded in a trace. -/
def numAttempts (tr : List Event) : Nat :=
  tr.countP Event.isAttempt

/-- Helper for delaysBeforeAttempts: walking the tail of a trace with the
previous event at hand, every attempt event must be immediately preceded
by a delay event. -/
def chainOk : Event → List Event → Bool
  | _, [] => true
  | prev, e :: rest => (!e.isAttempt || prev.isDelay) && chainOk e rest

/-- Every HTTP attempt in the trace is immediately preceded by the
randomized delay (and the trace never opens with an attempt). -/
def delaysBeforeAttempts : List Event → Bool
  | [] => true
  | e :: rest => !e.isAttempt && chainOk e rest

/-! ## utils.get_with_retry

The loop body of get_with_retry (src/shared/utils.py). Each iteration
performs random_delay then session.get; the status is dispatched by the
if/elif chain of the source, in source order: 200 succeeds, 429 sleeps
an exponential backoff and retries, 403 sleeps 300 seconds and returns
None without retrying, >=500 sleeps 10 and retries, 408 sleeps 10 and
retries, other 4xx returns None at once, any other code returns None at
once; a transport exception sleeps 10 and retries. The oracle gives the
outcome of each attempt by its index; base is rate_limit_base_wait. The
result pairs the trace of events with the returned value (the response
is represented by its status code; None is none). -/
def get_with_retry_loop (oracle : Nat → AttemptResult) (base : Nat) :
    Nat → Nat → List Event × Option Int
  | _, 0 => ([], none)
  | attempt, fuel + 1 =>
    match oracle attempt with
    | .exn =>
      let rest := get_with_retry_loop oracle base (attempt + 1) fuel
      (Event.delay :: Event.reqError :: Event.sleep 10 :: rest.1, rest.2)
    | .status code =>
      if code = 200 then
        ([Event.delay, Event.request code], some code)
      else if code = 429 then
        let rest := get_with_retry_loop oracle base (attempt + 1) fuel
        (Event.delay :: Event.request code ::
          Event.sleep (2 ^ attempt * base) :: rest.1, rest.2)
      else if code = 403 then
        ([Event.delay, Event.request code, Event.sleep 300], none)
      else if 500 ≤ code then
        let rest := get_with_retry_loop oracle base (attempt + 1) fuel
        (Event.delay :: Event.request code :: Event.sleep 10 :: rest.1, rest.2)
      else if code = 408 then
        let rest := get_with_retry_loop oracle base (attempt + 1) fuel
        (Event.delay :: Event.request code :: Event.sleep 10 :: rest.1, rest.2)
      else if 400 ≤ code ∧ code < 500 then
        ([Event.delay, Event.request code], none)
      else
        ([Event.delay, Event.request code], none)

/-- Entry point of get_with_retry: runs the for-loop over
range(max_retries) starting at attempt index 0; exhausting all attempts
returns None. -/
def get_with_retry (oracle : Nat → AttemptResult) (max_retries base : Nat) :
    List Event × Option Int :=
  get_with_retry_loop oracle base 0 max_retries

/-- Trace of one attempt against a URL that answers 500: the randomized
delay, the request, and the 10 second server-error wait. -/
def attempt500Block : List Event :=
  [Event.delay, Event.request 500, Event.sleep 10]

/-! ## Checkpoint store: utils.save_checkpoint and utils.load_checkpoint -/

/-- JSON value tree, the domain of the checkpoint data (the spec calls a
checkpoint an opaque JSON-serializable progress blob). -/
inductive Json where
  | null
  | bool (b : Bool)
  | num (n : Int)
  | str (s : String)
  | arr (elems : List Json)
  | obj (entries : List (String × Json))

/-- Content of a file on disk: either a fully written JSON document or a
partially written one (interrupted json.dump); json.load fails on the
latter. -/
inductive FileData where
  | complete (v : Json)
  | incomplete

/-- File system state: each path maps to the content of the file there,
or to none when no file exists at that path. -/
def FileSys : Type := String → Option FileData

/-- Create or overwrite the file at path p with content d. -/
def fsWrite (fs : FileSys) (p : String) (d : FileData) : FileSys :=
  fun q => if q = p then some d else fs q

/-- Delete the file at path p (Path.unlink with missing_ok). -/
def fsRemove (fs : FileSys) (p : String) : FileSys :=
  fun q => if q = p then none else fs q

/-- Point of failure inside save_checkpoint: no failure, a failure while
json.dump writes the temp file (serialization or I/O error), or a
failure of the shutil.move rename. -/
inductive SaveFailure where
  | noFail
  | atWrite
  | atRename
deriving DecidableEq, Repr

/-- Path of the temp file that tempfile.mkstemp creates next to the
target: same directory, the target name as stem, a fresh random part,
and the .tmp suffix. -/
def tempPath (filepath nonce : String) : String :=
  filepath ++ "." ++ nonce ++ ".tmp"

/-- Result of save_checkpoint: whether an exception was re-raised to the
caller, and the final file system state. -/
structure SaveOutcome where
  raised : Bool
  fs : FileSys

/-- Model of save_checkpoint (src/shared/utils.py). mkstemp creates an
empty temp file next to the target; json.dump fills it; shutil.move
renames it over the target. On a failure during the write or the rename,
the inner handler unlinks the temp file and re-raises; the outer handler
also re-raises. The fail argument is the oracle saying where, if
anywhere, the write phase fails; nonce is the random part of the temp
file name chosen by mkstemp. -/
def save_checkpoint (data : Json) (filepath nonce : String)
    (fail : SaveFailure) (fs : FileSys) : SaveOutcome :=
  let temp := tempPath filepath nonce
  let fs1 := fsWrite fs temp FileData.incomplete
  match fail with
  | .atWrite =>
    { raised := true, fs := fsRemove fs1 temp }
  | .atRename =>
    let fs2 := fsWrite fs1 temp (FileData.complete data)
    { raised := true, fs := fsRemove fs2 temp }
  | .noFail =>
    let fs2 := fsWrite fs1 temp (FileData.complete data)
    { raised := false,
      fs := fsWrite (fsRemove fs2 temp) filepath (FileData.complete data) }

/-- Model of load_checkpoint (src/shared/utils.py): a missing path gives
None; a file whose content does not parse as JSON is logged and gives
None; a fully written JSON file gives its decoded value. -/
def load_checkpoint (filepath : String) (fs : FileSys) : Option Json :=
  match fs filepath with
  | none => none
  | some FileData.incomplete => none
  | some (FileData.complete v) => some v

/-! ## proxy_client.ProxyMode, ProxyConfig, ProxyResponse -/

/-- Proxy operation modes (proxy_client.ProxyMode). -/
inductive ProxyMode where
  | direct
  | residential
  | web_scraper_api
deriving DecidableEq, Repr

/-- Configuration for the proxy client (proxy_client.ProxyConfig).
Fractional-second settings (retry_delay, min_delay, max_delay), floats
in the source, are modelled as rationals. -/
structure ProxyConfig where
  mode : ProxyMode := ProxyMode.direct
  username : String := ""
  password : String := ""
  residential_endpoint : String := "pr.oxylabs.io:7777"
  country_code : String := "us"
  city : String := ""
  state : String := ""
  session_type : String := "rotating"
  session_id : String := ""
  scraper_api_endpoint : String := "https://realtime.oxylabs.io/v1/queries"
  render_js : Bool := false
  parse : Bool := false
  timeout : Int := 60
  max_retries : Nat := 3
  retry_delay : Rat := 2
  min_delay : Rat := 0
  max_delay : Rat := 0
deriving DecidableEq, Repr

/-- ProxyConfig.validate: direct mode always validates; any other mode
requires a non-empty username and a non-empty password (Python
truthiness of the credential strings). -/
def ProxyConfig.validate (cfg : ProxyConfig) : Bool :=
  if cfg.mode = ProxyMode.direct then true
  else !(cfg.username = "" || cfg.password = "")

/-- Effect of ProxyClient.__init__ on the config object passed in. The
client stores the very object the caller passed (self.config = config
aliases it in Python); when validate fails the constructor assigns
ProxyMode.DIRECT to its mode field, mutating the shared object. The
result is the state of the config object after construction. -/
def proxy_client_init_config (config : ProxyConfig) : ProxyConfig :=
  if config.validate then config else { config with mode := ProxyMode.direct }

/-- Unified response object (proxy_client.ProxyResponse). The content
byte string and the elapsed_seconds float timing of the source carry no
information the claims touch and are omitted. -/
structure ProxyResponse where
  status_code : Int
  text : String
  headers : List (String × String) := []
  url : String
  proxy_mode : ProxyMode
  job_id : Option String := none
  credits_used : Option Int := none
deriving DecidableEq, Repr

/-- ProxyResponse.ok: the request was successful. -/
def ProxyResponse.ok (r : ProxyResponse) : Bool :=
  200 ≤ r.status_code && r.status_code < 300

/-! ## proxy_client.ProxyClient._build_residential_proxy_url -/

/-- Username field of the residential proxy URL: the account username
followed by the targeting attributes that are set, joined by the fixed
separator. Country, city and state are added when non-empty; the session
id is added when the session type is sticky and the id is non-empty.
This is the username_parts computation of
ProxyClient._build_residential_proxy_url. -/
def residential_username (cfg : ProxyConfig) : String :=
  let parts := [cfg.username]
  let parts := parts ++
    (if cfg.country_code ≠ "" then ["country-" ++ cfg.country_code] else [])
  let parts := parts ++
    (if cfg.city ≠ "" then ["city-" ++ cfg.city] else [])
  let parts := parts ++
    (if cfg.state ≠ "" then ["state-" ++ cfg.state] else [])
  let parts := parts ++
    (if cfg.session_type = "sticky" ∧ cfg.session_id ≠ "" then
      ["session-" ++ cfg.session_id] else [])
  String.intercalate "-" parts

/-- ProxyClient._build_residential_proxy_url: the full proxy URL with
the targeting username, the password and the residential endpoint. -/
def build_residential_proxy_url (cfg : ProxyConfig) : String :=
  "http://" ++ residential_username cfg ++ ":" ++ cfg.password ++ "@" ++
    cfg.residential_endpoint

/-! ## proxy_client.ProxyClient._request_scraper_api -/

/-- One element of the results array of a Web Scraper API reply: a
content string and an optional status_code (result.get falls back to 200
when absent). -/
structure ApiResult where
  content : String
  status_code : Option Int := none
deriving DecidableEq, Repr

/-- The HTTP reply of the POST to the scraper API endpoint: its status
code, its raw body text, the parsed results array (meaningful when the
status is 200 and the body parses), and the job metadata. -/
structure ApiReply where
  status_code : Int
  text : String
  results : List ApiResult := []
  job_id : Option String := none
  credits_used : Option Int := none
deriving DecidableEq, Repr

/-- Value stored in the JSON payload of the scraper API request. -/
inductive PayloadVal where
  | str (s : String)
  | bool (b : Bool)
  | headerMap (h : List (String × String))
deriving DecidableEq, Repr

/-- Payload built by ProxyClient._request_scraper_api: source, url and
geo_location (the upper-cased country code when the country code is
non-empty, otherwise None); render set to html when JS rendering is on;
custom_headers when a non-empty header dict was passed (Python
truthiness); parse set to True when configured; finally the None values
are removed. -/
def build_scraper_payload (cfg : ProxyConfig) (url : String)
    (render_js : Bool) (headers : Option (List (String × String))) :
    List (String × PayloadVal) :=
  let base : List (String × Option PayloadVal) :=
    [("source", some (PayloadVal.str "universal")),
     ("url", some (PayloadVal.str url)),
     ("geo_location",
       if cfg.country_code ≠ "" then
         some (PayloadVal.str cfg.country_code.toUpper)
       else none)]
  let withRender := base ++
    (if render_js then [("render", some (PayloadVal.str "html"))] else [])
  let withHeaders := withRender ++
    (match headers with
     | some h => if h ≠ [] then
         [("custom_headers", some (PayloadVal.headerMap h))] else []
     | none => [])
  let withParse := withHeaders ++
    (if cfg.parse then [("parse", some (PayloadVal.bool true))] else [])
  withParse.filterMap (fun kv => kv.2.map (fun v => (kv.1, v)))

/-- Whether a key is present in the payload. -/
def payloadHasKey (p : List (String × PayloadVal)) (k : String) : Bool :=
  p.any (fun kv => kv.1 == k)

/-- Response normalization of ProxyClient._request_scraper_api: when the
API replied 200 and the results array is non-empty, the first result is
unwrapped (its status_code defaulting to 200, its content becoming the
text); otherwise the error-shaped response carries the raw status and
body of the API reply. -/
def request_scraper_api (reply : ApiReply) (url : String) : ProxyResponse :=
  if reply.status_code = 200 then
    match reply.results with
    | result :: _ =>
      { status_code := result.status_code.getD 200
        text := result.content
        headers := []
        url := url
        proxy_mode := ProxyMode.web_scraper_api
        job_id := reply.job_id
        credits_used := reply.credits_used }
    | [] =>
      { status_code := reply.status_code
        text := reply.text
        headers := []
        url := url
        proxy_mode := ProxyMode.web_scraper_api }
  else
    { status_code := reply.status_code
      text := reply.text
      headers := []
      url := url
      proxy_mode := ProxyMode.web_scraper_api }

/-! ## proxy_client.ProxyClient.get retry loop -/

/-- What one iteration of the retry loop of ProxyClient.get does with a
response, following the branch order of the source: a successful
response is returned at once; a 429 sleeps a doubling backoff and
retries; a server error of 500 or above sleeps retry_delay and retries;
any other 4xx is returned to the caller without retrying; any remaining
code falls through the chain and the loop retries it. -/
inductive LoopAction where
  | ret (r : ProxyResponse)
  | retry
deriving DecidableEq, Repr

/-- Branch dispatch of the loop body of ProxyClient.get. -/
def handle_response (r : ProxyResponse) : LoopAction :=
  if r.ok then LoopAction.ret r
  else if r.status_code = 429 then LoopAction.retry
  else if 500 ≤ r.status_code then LoopAction.retry
  else if 400 ≤ r.status_code ∧ r.status_code < 500 then LoopAction.ret r
  else LoopAction.retry

/-- Retry loop of ProxyClient.get. The oracle respond gives, per attempt
index, the ProxyResponse the mode-specific request produced, or none
when the attempt raised (timeout, transport error, unexpected error);
any raise sleeps and retries. The result pairs the returned value with
the number of loop iterations executed; exhausting max_retries attempts
returns None. -/
def proxy_get_loop (respond : Nat → Option ProxyResponse) :
    Nat → Nat → Option ProxyResponse × Nat
  | _, 0 => (none, 0)
  | attempt, fuel + 1 =>
    let step :=
      match respond attempt with
      | none => LoopAction.retry
      | some r => handle_response r
    match step with
    | .ret r => (some r, 1)
    | .retry =>
      let rest := proxy_get_loop respond (attempt + 1) fuel
      (rest.1, rest.2 + 1)

/-- ProxyClient.get, starting at attempt 0 with the configured
max_retries as the attempt budget. -/
def proxy_get (respond : Nat → Option ProxyResponse) (max_retries : Nat) :
    Option ProxyResponse × Nat :=
  proxy_get_loop respond 0 max_retries

/-! ## Helper lemmas -/

/-- The temp file path properly extends the target path and therefore
differs from it. -/
theorem tempPath_ne (p nonce : String) : tempPath p nonce ≠ p := by
  intro h
  have hl := congrArg String.length h
  have h1 : (".").length = 1 := rfl
  have h2 : (".tmp").length = 4 := rfl
  simp [tempPath, String.length_append, h1, h2] at hl
  omega

/-- Behaviour of the get_with_retry loop against a URL that always
answers 500: every attempt appends one 500 block to the trace and the
loop exhausts its budget with no result. -/
theorem get_with_retry_loop_const500 (oracle : Nat → AttemptResult)
    (base : Nat) (h : ∀ i, oracle i = AttemptResult.status 500) :
    ∀ fuel attempt, get_with_retry_loop oracle base attempt fuel =
      (List.flatten (List.replicate fuel attempt500Block), none) := by
  intro fuel
  induction fuel with
  | zero => intro attempt; simp [get_with_retry_loop]
  | succ m ih =>
    intro attempt
    simp [get_with_retry_loop, h attempt, ih (attempt + 1), attempt500Block,
      List.replicate_succ, List.flatten_cons]

/-- A trace of n 500 blocks records n HTTP attempts. -/
theorem numAttempts_join_replicate (n : Nat) :
    numAttempts (List.flatten (List.replicate n attempt500Block)) = n := by
  induction n with
  | zero => simp [numAttempts]
  | succ m ih =>
    simp [numAttempts, List.replicate_succ, List.flatten_cons,
      List.countP_append, attempt500Block, List.countP_cons, Event.isAttempt, ih]

/-- In a trace of 500 blocks every attempt is immediately preceded by
the randomized delay, whatever event came just before the trace. -/
theorem chainOk_join_replicate (n : Nat) :
    ∀ p : Event, chainOk p (List.flatten (List.replicate n attempt500Block)) = true := by
  induction n with
  | zero => intro p; simp [chainOk]
  | succ m ih =>
    intro p
    simp [List.replicate_succ, List.flatten_cons, attempt500Block, chainOk,
      Event.isAttempt, Event.isDelay]
    exact ih _

/-- A trace made of 500 blocks satisfies the delays-before-attempts
discipline. -/
theorem delaysBeforeAttempts_join_replicate (n : Nat) :
    delaysBeforeAttempts (List.flatten (List.replicate n attempt500Block)) = true := by
  cases n with
  | zero => simp [delaysBeforeAttempts]
  | succ m =>
    simp [List.replicate_succ, List.flatten_cons, attempt500Block,
      delaysBeforeAttempts, chainOk, Event.isAttempt, Event.isDelay]
    exact chainOk_join_replicate m _

/-- When the retry loop of ProxyClient.get comes back empty-handed it
has executed its whole attempt budget. -/
theorem proxy_get_loop_none_exhausts (respond : Nat → Option ProxyResponse) :
    ∀ fuel attempt, (proxy_get_loop respond attempt fuel).1 = none →
      (proxy_get_loop respond attempt fuel).2 = fuel := by
  intro fuel
  induction fuel with
  | zero => intro attempt _; rfl
  | succ m ih =>
    intro attempt h
    simp only [proxy_get_loop] at h ⊢
    cases hs : (match respond attempt with
        | none => LoopAction.retry
        | some r => handle_response r) with
    | ret r => rw [hs] at h; simp at h
    | retry =>
      rw [hs] at h
      show (proxy_get_loop respond (attempt + 1) m).2 + 1 = m + 1
      have h2 : (proxy_get_loop respond (attempt + 1) m).1 = none := h
      rw [ih (attempt + 1) h2]

/-! ## Claim theorems -/

/-- C1: for every call to get_with_retry in which the response to the
first attempt has status 403, the function makes exactly one HTTP
request and returns None, regardless of the configured max_retries,
after a single 300 second cooldown sleep local to that call. -/
theorem get_with_retry_403_single_attempt (oracle : Nat → AttemptResult)
    (max_retries base : Nat) (hN : 1 ≤ max_retries)
    (h0 : oracle 0 = AttemptResult.status 403) :
    (get_with_retry oracle max_retries base).2 = none ∧
    numAttempts (get_with_retry oracle max_retries base).1 = 1 ∧
    (get_with_retry oracle max_retries base).1 =
      [Event.delay, Event.request 403, Event.sleep 300] := by
  obtain ⟨m, rfl⟩ : ∃ m, max_retries = m + 1 := ⟨max_retries - 1, by omega⟩
  simp [get_with_retry, get_with_retry_loop, h0, numAttempts,
    List.countP_cons, Event.isAttempt]

/-- Witness for C1 at max_retries 3, rate_limit_base_wait 30 and an
oracle answering 403 on every attempt. -/
theorem get_with_retry_403_single_attempt_witness :
    (get_with_retry (fun _ => AttemptResult.status 403) 3 30).2 = none ∧
    numAttempts (get_with_retry (fun _ => AttemptResult.status 403) 3 30).1 = 1 ∧
    (get_with_retry (fun _ => AttemptResult.status 403) 3 30).1 =
      [Event.delay, Event.request 403, Event.sleep 300] :=
  get_with_retry_403_single_attempt (fun _ => AttemptResult.status 403) 3 30
    (by decide) rfl

/-- C2: for every max_retries N with N at least one, calling
get_with_retry on a URL whose every response has status 500 makes
exactly N HTTP attempts, each immediately preceded by the configured
randomized wait, and finally returns None; the function is total, so no
exception reaches the caller. -/
theorem get_with_retry_all_500_exhausts (oracle : Nat → AttemptResult)
    (max_retries base : Nat) (hN : 1 ≤ max_retries)
    (h : ∀ i, oracle i = AttemptResult.status 500) :
    (get_with_retry oracle max_retries base).2 = none ∧
    numAttempts (get_with_retry oracle max_retries base).1 = max_retries ∧
    delaysBeforeAttempts (get_with_retry oracle max_retries base).1 = true := by
  have key := get_with_retry_loop_const500 oracle base h max_retries 0
  unfold get_with_retry
  rw [key]
  exact ⟨rfl, numAttempts_join_replicate max_retries,
    delaysBeforeAttempts_join_replicate max_retries⟩

/-- Witness for C2 at max_retries 2 and an oracle answering 500 on every
attempt. -/
theorem get_with_retry_all_500_exhausts_witness :
    (get_with_retry (fun _ => AttemptResult.status 500) 2 30).2 = none ∧
    numAttempts (get_with_retry (fun _ => AttemptResult.status 500) 2 30).1 = 2 ∧
    delaysBeforeAttempts (get_with_retry (fun _ => AttemptResult.status 500) 2 30).1 = true :=
  get_with_retry_all_500_exhausts (fun _ => AttemptResult.status 500) 2 30
    (by decide) (fun _ => rfl)

/-- C3: save_checkpoint followed by load_checkpoint on the same path
returns the exact data structure that was saved: the save raises
nothing and the load decodes the very value. -/
theorem save_load_checkpoint_roundtrip (d : Json) (p nonce : String)
    (fs : FileSys) :
    (save_checkpoint d p nonce SaveFailure.noFail fs).raised = false ∧
    load_checkpoint p (save_checkpoint d p nonce SaveFailure.noFail fs).fs = some d := by
  refine ⟨rfl, ?_⟩
  simp [save_checkpoint, load_checkpoint, fsWrite, fsRemove]

/-- C4: when a failure strikes during the write phase of save_checkpoint
(while writing the temp file or while renaming it), given that mkstemp
chose a fresh temp path, the error is re-raised to the caller and the
file system is left exactly as before — in particular any pre-existing
checkpoint at the target path is intact and the temp file is gone; and
on the failure-free path the target ends up holding the new fully
written document with the temp file removed, so the target file is
always either the previous or the new fully written version. -/
theorem save_checkpoint_failure_atomic (d : Json) (p nonce : String)
    (fs : FileSys) (fail : SaveFailure)
    (hfresh : fs (tempPath p nonce) = none) :
    (fail ≠ SaveFailure.noFail →
      (save_checkpoint d p nonce fail fs).raised = true ∧
      ∀ q, (save_checkpoint d p nonce fail fs).fs q = fs q) ∧
    (fail = SaveFailure.noFail →
      (save_checkpoint d p nonce fail fs).raised = false ∧
      (save_checkpoint d p nonce fail fs).fs p = some (FileData.complete d) ∧
      (save_checkpoint d p nonce fail fs).fs (tempPath p nonce) = none) := by
  constructor
  · intro hne
    cases fail with
    | noFail => exact absurd rfl hne
    | atWrite =>
      refine ⟨rfl, fun q => ?_⟩
      by_cases hq : q = tempPath p nonce
      · simp [save_checkpoint, fsRemove, fsWrite, hq, hfresh.symm]
      · simp [save_checkpoint, fsRemove, fsWrite, hq]
    | atRename =>
      refine ⟨rfl, fun q => ?_⟩
      by_cases hq : q = tempPath p nonce
      · simp [save_checkpoint, fsRemove, fsWrite, hq, hfresh.symm]
      · simp [save_checkpoint, fsRemove, fsWrite, hq]
  · intro he
    subst he
    refine ⟨rfl, ?_, ?_⟩
    · simp [save_checkpoint, fsWrite]
    · simp [save_checkpoint, fsWrite, fsRemove, tempPath_ne p nonce]

/-- Witness for C4: a write failure on an empty file system leaves no
file at the target and raises. -/
theorem save_checkpoint_failure_atomic_witness :
    (save_checkpoint Json.null "cp.json" "ab" SaveFailure.atWrite (fun _ => none)).raised = true ∧
    (save_checkpoint Json.null "cp.json" "ab" SaveFailure.atWrite (fun _ => none)).fs "cp.json" = none := by
  have h := save_checkpoint_failure_atomic Json.null "cp.json" "ab"
    (fun _ => none) SaveFailure.atWrite rfl
  exact ⟨(h.1 (by decide)).1, ((h.1 (by decide)).2 "cp.json").trans rfl⟩

/-- C5: the ok property of a ProxyResponse holds exactly when the status
code lies in the interval from 200 inclusive to 300 exclusive; every
status code outside that interval gives ok false. -/
theorem proxyResponse_ok_iff (r : ProxyResponse) :
    r.ok = true ↔ (200 ≤ r.status_code ∧ r.status_code < 300) := by
  simp [ProxyResponse.ok]

/-- C6: for a configuration with username u, country code us, city
seattle, empty state, sticky session type and session id abc, the
authentication username built into the residential proxy URL is exactly
the targeting attributes joined by the fixed separator, and the full URL
embeds it. -/
theorem residential_username_concrete :
    residential_username
      { mode := ProxyMode.residential, username := "u", password := "p",
        country_code := "us", city := "seattle", state := "",
        session_type := "sticky", session_id := "abc" } =
      "u-country-us-city-seattle-session-abc" ∧
    build_residential_proxy_url
      { mode := ProxyMode.residential, username := "u", password := "p",
        country_code := "us", city := "seattle", state := "",
        session_type := "sticky", session_id := "abc" } =
      "http://u-country-us-city-seattle-session-abc:p@pr.oxylabs.io:7777" := by
  constructor <;> rfl

/-- C7: the JSON payload sent to the scraping endpoint contains the key
geo_location exactly when the country code is non-empty, render exactly
when JS rendering is on, custom_headers exactly when a non-empty header
dict was supplied, and parse exactly when structured parsing is
configured. -/
theorem scraper_payload_optional_keys (cfg : ProxyConfig) (url : String)
    (render_js : Bool) (headers : Option (List (String × String))) :
    (payloadHasKey (build_scraper_payload cfg url render_js headers) "geo_location" = true
      ↔ cfg.country_code ≠ "") ∧
    (payloadHasKey (build_scraper_payload cfg url render_js headers) "render" = true
      ↔ render_js = true) ∧
    (payloadHasKey (build_scraper_payload cfg url render_js headers) "custom_headers" = true
      ↔ (headers ≠ none ∧ headers ≠ some [])) ∧
    (payloadHasKey (build_scraper_payload cfg url render_js headers) "parse" = true
      ↔ cfg.parse = true) := by
  rcases headers with _ | h
  · by_cases hc : cfg.country_code = "" <;> cases render_js <;>
      by_cases hp : cfg.parse <;>
      simp [build_scraper_payload, payloadHasKey, hc, hp]
  · by_cases hh : h = [] <;> by_cases hc : cfg.country_code = "" <;>
      cases render_js <;> by_cases hp : cfg.parse <;>
      simp [build_scraper_payload, payloadHasKey, hc, hp, hh]

/-- C8 counterexample: constructing a ProxyClient with a residential
config that lacks credentials mutates the config object the caller
passed in (its mode field is downgraded to direct), so the config is not
immutable across ProxyClient construction. -/
theorem proxy_client_init_mutates_config :
    proxy_client_init_config
        { mode := ProxyMode.residential, username := "", password := "" } ≠
      { mode := ProxyMode.residential, username := "", password := "" } := by
  intro h
  have hm := congrArg ProxyConfig.mode h
  simp [proxy_client_init_config, ProxyConfig.validate] at hm

/-- C8 amended: ProxyClient construction leaves every field of the
caller-supplied config unchanged except possibly mode, and leaves mode
unchanged exactly when validation succeeds; when validation fails (a
non-direct mode with an empty username or password) the mode field of
the caller-visible config object is set to direct. -/
theorem proxy_client_init_preserves_other_fields (cfg : ProxyConfig) :
    (proxy_client_init_config cfg).username = cfg.username ∧
    (proxy_client_init_config cfg).password = cfg.password ∧
    (proxy_client_init_config cfg).residential_endpoint = cfg.residential_endpoint ∧
    (proxy_client_init_config cfg).country_code = cfg.country_code ∧
    (proxy_client_init_config cfg).city = cfg.city ∧
    (proxy_client_init_config cfg).state = cfg.state ∧
    (proxy_client_init_config cfg).session_type = cfg.session_type ∧
    (proxy_client_init_config cfg).session_id = cfg.session_id ∧
    (proxy_client_init_config cfg).scraper_api_endpoint = cfg.scraper_api_endpoint ∧
    (proxy_client_init_config cfg).render_js = cfg.render_js ∧
    (proxy_client_init_config cfg).parse = cfg.parse ∧
    (proxy_client_init_config cfg).timeout = cfg.timeout ∧
    (proxy_client_init_config cfg).max_retries = cfg.max_retries ∧
    (proxy_client_init_config cfg).retry_delay = cfg.retry_delay ∧
    (proxy_client_init_config cfg).min_delay = cfg.min_delay ∧
    (proxy_client_init_config cfg).max_delay = cfg.max_delay ∧
    (proxy_client_init_config cfg).mode =
      (if cfg.validate = true then cfg.mode else ProxyMode.direct) := by
  unfold proxy_client_init_config
  by_cases h : cfg.validate <;> simp [h]

/-- C9: in web_scraper_api mode, when the managed API endpoint answers
HTTP 200 with an empty results array, the normalized response has status
code 200 (so ok holds) and carries the raw API body as its text, and the
retry loop of ProxyClient.get hands it to the caller as a success on the
first attempt, with no retry. -/
theorem scraper_api_empty_results_success (reply : ApiReply) (url : String)
    (respond : Nat → Option ProxyResponse) (max_retries : Nat)
    (hstatus : reply.status_code = 200) (hresults : reply.results = [])
    (hN : 1 ≤ max_retries)
    (hr : respond 0 = some (request_scraper_api reply url)) :
    (request_scraper_api reply url).status_code = 200 ∧
    (request_scraper_api reply url).ok = true ∧
    (request_scraper_api reply url).text = reply.text ∧
    proxy_get respond max_retries = (some (request_scraper_api reply url), 1) := by
  have hresp : request_scraper_api reply url =
      { status_code := 200, text := reply.text, headers := [], url := url,
        proxy_mode := ProxyMode.web_scraper_api } := by
    simp [request_scraper_api, hstatus, hresults]
  obtain ⟨m, rfl⟩ : ∃ m, max_retries = m + 1 := ⟨max_retries - 1, by omega⟩
  refine ⟨by rw [hresp], by rw [hresp]; rfl, by rw [hresp], ?_⟩
  simp [proxy_get, proxy_get_loop, hr, hresp, handle_response, ProxyResponse.ok]

/-- Witness for C9 at a concrete empty-results API reply and three
configured retries. -/
theorem scraper_api_empty_results_success_witness :
    (request_scraper_api { status_code := 200, text := "raw body", results := [] } "http://x").status_code = 200 ∧
    (request_scraper_api { status_code := 200, text := "raw body", results := [] } "http://x").ok = true ∧
    (request_scraper_api { status_code := 200, text := "raw body", results := [] } "http://x").text =
      ({ status_code := 200, text := "raw body", results := [] } : ApiReply).text ∧
    proxy_get
        (fun _ => some (request_scraper_api { status_code := 200, text := "raw body", results := [] } "http://x"))
        3 =
      (some (request_scraper_api { status_code := 200, text := "raw body", results := [] } "http://x"), 1) :=
  scraper_api_empty_results_success
    { status_code := 200, text := "raw body", results := [] } "http://x"
    (fun _ => some (request_scraper_api { status_code := 200, text := "raw body", results := [] } "http://x"))
    3 rfl rfl (by decide) rfl

/-- C10: the retry loop of ProxyClient.get returns None only when the
whole attempt budget has been executed, and its branch dispatch returns
the response object itself to the caller for every 4xx response other
than 429. -/
theorem proxy_get_none_only_exhausted (respond : Nat → Option ProxyResponse)
    (max_retries : Nat) :
    ((proxy_get respond max_retries).1 = none →
      (proxy_get respond max_retries).2 = max_retries) ∧
    (∀ r : ProxyResponse, 400 ≤ r.status_code → r.status_code < 500 →
      r.status_code ≠ 429 → handle_response r = LoopAction.ret r) := by
  constructor
  · exact proxy_get_loop_none_exhausts respond max_retries 0
  · intro r h1 h2 h3
    have hok : ¬ (r.ok = true) := by
      simp [ProxyResponse.ok]
      omega
    rw [handle_response, if_neg hok, if_neg h3,
      if_neg (show ¬ (500 : Int) ≤ r.status_code by omega),
      if_pos (show (400 : Int) ≤ r.status_code ∧ r.status_code < 500 from ⟨h1, h2⟩)]

/-- Witness for C10: a transport that raises on every attempt exhausts a
budget of two iterations, and the dispatch returns a concrete 404
response to the caller. -/
theorem proxy_get_none_only_exhausted_witness :
    (proxy_get (fun _ => none) 2).2 = 2 ∧
    handle_response
        { status_code := 404, text := "nf", url := "http://x", proxy_mode := ProxyMode.direct } =
      LoopAction.ret
        { status_code := 404, text := "nf", url := "http://x", proxy_mode := ProxyMode.direct } := by
  have h := proxy_get_none_only_exhausted (fun _ => none) 2
  exact ⟨h.1 rfl,
    h.2 { status_code := 404, text := "nf", url := "http://x", proxy_mode := ProxyMode.direct }
      (by decide) (by decide) (by decide)⟩
